import Mathlib

/-!
Verification development for the PhishGuardAI decision/escalation core.

Python floats are modelled as exact rationals, Python strings as Lean
strings, Python dictionaries as association lists, and fallible code as
Except values.  Each definition is a shallow embedding of the
corresponding function of the repository (module and function named in
its doc comment).
-/

namespace PhishGuard

/-- Decision = Literal of ALLOW, REVIEW, BLOCK (src/common/thresholds.py). -/
inductive Decision where
  | ALLOW
  | REVIEW
  | BLOCK
deriving DecidableEq, Repr

open Decision

/-- Thresholds TypedDict (src/common/thresholds.py). -/
structure Thresholds where
  t_star : ℚ
  low : ℚ
  high : ℚ
  gray_zone_rate : ℚ
deriving DecidableEq, Repr

/-- decide (src/common/thresholds.py, lines 39-44):
if p_malicious is below low return ALLOW, if at least high return BLOCK,
otherwise REVIEW. -/
def decide (p_malicious : ℚ) (th : Thresholds) : Decision :=
  if p_malicious < th.low then ALLOW
  else if p_malicious ≥ th.high then BLOCK
  else REVIEW

/-- The raw numeric fields a thresholds JSON object may carry, each
optional (a missing JSON key is none).  Values are modelled as rationals;
the float(...) coercion of the loader is the identity here. -/
structure RawThresholds where
  optimal_threshold : Option ℚ
  t_star : Option ℚ
  gray_zone_low : Option ℚ
  low : Option ℚ
  gray_zone_high : Option ℚ
  high : Option ℚ
  gray_zone_rate : Option ℚ
deriving DecidableEq, Repr

/-- A parsed thresholds configuration file: either the fields sit nested
under a thresholds key (nested = some ...) or at the top level. -/
structure ConfigFile where
  nested : Option RawThresholds
  flat : RawThresholds
deriving DecidableEq, Repr

/-- load_thresholds (src/common/thresholds.py, lines 13-33) on an already
JSON-parsed configuration.  The nested branch reads
optimal_threshold/t_star (default 0.35), gray_zone_low/low (default
0.004), gray_zone_high/high (default 0.999) via chained .get calls, and
indexes gray_zone_rate directly, so a missing gray_zone_rate raises
KeyError (modelled as Except.error).  The flat branch reads only
optimal_threshold, gray_zone_low, gray_zone_high with the same defaults
and indexes gray_zone_rate. -/
def load_thresholds (cfg : ConfigFile) : Except String Thresholds :=
  match cfg.nested with
  | some th =>
      match th.gray_zone_rate with
      | none => .error "KeyError: gray_zone_rate"
      | some gzr =>
          .ok { t_star := ((th.optimal_threshold).orElse (fun _ => th.t_star)).getD (35/100)
                low := ((th.gray_zone_low).orElse (fun _ => th.low)).getD (4/1000)
                high := ((th.gray_zone_high).orElse (fun _ => th.high)).getD (999/1000)
                gray_zone_rate := gzr }
  | none =>
      match cfg.flat.gray_zone_rate with
      | none => .error "KeyError: gray_zone_rate"
      | some gzr =>
          .ok { t_star := (cfg.flat.optimal_threshold).getD (35/100)
                low := (cfg.flat.gray_zone_low).getD (4/1000)
                high := (cfg.flat.gray_zone_high).getD (999/1000)
                gray_zone_rate := gzr }

/-- The gray_zone_rate field of the branch of the configuration that
load_thresholds actually reads. -/
def activeRate (cfg : ConfigFile) : Option ℚ :=
  match cfg.nested with
  | some th => th.gray_zone_rate
  | none => cfg.flat.gray_zone_rate

/-- A configuration whose nested thresholds put low above high. -/
def badConfig : ConfigFile :=
  { nested := some { optimal_threshold := none
                     t_star := some (45/100)
                     gray_zone_low := some (9/10)
                     low := none
                     gray_zone_high := some (1/10)
                     high := none
                     gray_zone_rate := some (1/10) }
    flat := { optimal_threshold := none, t_star := none, gray_zone_low := none
              low := none, gray_zone_high := none, high := none
              gray_zone_rate := none } }

/-- Python str.lower restricted to ASCII, applied characterwise (the
built-in String.toLower is avoided because its byte-position recursion
does not reduce in the kernel). -/
def strLower (s : String) : String := ⟨s.data.map Char.toLower⟩

/-- The fixed special-character set of _calc_special_char_ratio and
_count_special_chars (src/common/feature_extraction.py). -/
def specialChars : List Char := "!@#$%^&*()_+-=[]\x7b\x7d|;:,.<>?/".data

/-- _count_special_chars (src/common/feature_extraction.py, lines
206-220): raw count of special characters, 0 for the empty string. -/
def count_special_chars (url : String) : ℕ :=
  if url = "" then 0
  else (url.data.filter (fun c => c ∈ specialChars)).length

/-- _calc_special_char_ratio (src/common/feature_extraction.py, lines
185-203): special-character count over total length, 0 for the empty
string. -/
def calc_special_char_frac (url : String) : ℚ :=
  if url = "" then 0
  else ((url.data.filter (fun c => c ∈ specialChars)).length : ℚ) / url.length

/-- Count of adjacent equal-character pairs of a character list. -/
def adjacentEqualPairs : List Char → ℕ
  | c :: d :: rest => (if c = d then 1 else 0) + adjacentEqualPairs (d :: rest)
  | _ => 0

/-- _calc_char_continuation (src/common/feature_extraction.py, lines
164-182): adjacent equal pairs over length minus one, 0 when the length
is below 2. -/
def calc_char_continuation (url : String) : ℚ :=
  if url.length < 2 then 0
  else (adjacentEqualPairs url.data : ℚ) / ((url.length : ℚ) - 1)

/-- _calc_letter_ratio (src/common/feature_extraction.py, lines 223-237):
alphabetic characters over total length (ASCII reading of isalpha). -/
def calc_letter_frac (url : String) : ℚ :=
  if url = "" then 0
  else ((url.data.filter (fun c => c.isAlpha)).length : ℚ) / url.length

/-- The common URL character set of _calc_url_char_prob. -/
def commonURLChars : List Char :=
  "abcdefghijklmnopqrstuvwxyzABCDEFGHIJKLMNOPQRSTUVWXYZ0123456789:/.?=&-_".data

/-- _calc_url_char_prob (src/common/feature_extraction.py, lines
240-273): proportion of common URL characters scaled by the calibration
constant 0.06; 0 for the empty string. -/
def calc_url_char_prob (url : String) : ℚ :=
  if url = "" then 0
  else (((url.data.filter (fun c => c ∈ commonURLChars)).length : ℚ) / url.length)
         * (6/100)

/-- Characters urllib.parse allows inside a URL scheme after the leading
letter. -/
def schemeChar (c : Char) : Bool :=
  c.isAlphanum || c = '+' || c = '-' || c = '.'

/-- A valid scheme is a leading ASCII letter followed by scheme
characters. -/
def validScheme : List Char → Bool
  | [] => false
  | c :: cs => c.isAlpha && cs.all schemeChar

/-- The scheme split of urllib.parse.urlsplit: when the text before the
first colon is a valid scheme it is removed and returned lowercased,
otherwise the scheme is empty and the input is left intact. -/
def splitScheme (s : List Char) : List Char × List Char :=
  match s.findIdx? (fun c => c = ':') with
  | some i =>
      if 0 < i ∧ validScheme (s.take i) = true
      then ((s.take i).map Char.toLower, s.drop (i+1))
      else ([], s)
  | none => ([], s)

/-- The two urlsplit fields extract_features reads. -/
structure SplitResult where
  scheme : String
  netloc : String
deriving DecidableEq, Repr

/-- urllib.parse.urlsplit restricted to scheme and netloc: after the
scheme split, a leading double slash delimits the netloc, which runs to
the first slash, question mark or hash; a bracket appearing in the netloc
without its partner raises ValueError Invalid IPv6 URL, modelled as
Except.error.  (The NFKC netloc character check of newer CPython is out
of scope.) -/
def urlsplitE (url : String) : Except Unit SplitResult :=
  let (sch, rest) := splitScheme url.data
  if rest.take 2 = ['/', '/'] then
    let nl := (rest.drop 2).takeWhile (fun c => !(c = '/' || c = '?' || c = '#'))
    if nl.contains '[' = nl.contains ']' then .ok ⟨⟨sch⟩, ⟨nl⟩⟩
    else .error ()
  else .ok ⟨⟨sch⟩, ""⟩

/-- The dictionary extract_features returns, as a record.  IsHTTPS is
optional because the key is only present when include_https was
requested; its 0.0/1.0 float value is modelled as a natural number. -/
structure FeatMap where
  IsHTTPS : Option ℕ
  TLDLegitimateProb : ℚ
  CharContinuationRate : ℚ
  SpacialCharRatioInURL : ℚ
  URLCharProb : ℚ
  LetterRatioInURL : ℚ
  NoOfOtherSpecialCharsInURL : ℕ
  DomainLength : ℕ
deriving DecidableEq, Repr

/-- _zero_features (src/common/feature_extraction.py, lines 276-299):
the neutral-default digest returned on empty or malformed input. -/
def zero_features (include_https : Bool) : FeatMap :=
  { IsHTTPS := if include_https then some 0 else none
    TLDLegitimateProb := 1/2
    CharContinuationRate := 0
    SpacialCharRatioInURL := 0
    URLCharProb := 5/100
    LetterRatioInURL := 0
    NoOfOtherSpecialCharsInURL := 0
    DomainLength := 0 }

/-- External collaborators of feature extraction: the TLD probability
table loaded from the data file (a read-only map, missing entries
defaulting to 0.5 at the lookup site) and the tldextract suffix
function. -/
structure FeatureEnv where
  tldProbs : String → Option ℚ
  tldSuffix : String → String

/-- extract_features (src/common/feature_extraction.py, lines 90-156):
empty input and a urlsplit failure both return the neutral default;
otherwise the eight character-level features are computed.  The function
is total, mirroring the catch-all except branch of the source. -/
def extract_features (env : FeatureEnv) (url : String)
    (include_https : Bool) : FeatMap :=
  if url = "" then zero_features include_https
  else
    match urlsplitE url with
    | .error _ => zero_features include_https
    | .ok parsed =>
        let suffix := env.tldSuffix url
        let tld := if suffix = "" then "" else strLower suffix
        { IsHTTPS :=
            if include_https then some (if parsed.scheme = "https" then 1 else 0)
            else none
          TLDLegitimateProb := (env.tldProbs tld).getD (1/2)
          CharContinuationRate := calc_char_continuation url
          SpacialCharRatioInURL := calc_special_char_frac url
          URLCharProb := calc_url_char_prob url
          LetterRatioInURL := calc_letter_frac url
          NoOfOtherSpecialCharsInURL := count_special_chars url
          DomainLength := parsed.netloc.length }

/-- JudgeVerdict literal (src/judge_svc/contracts.py). -/
inductive JudgeVerdict where
  | LEAN_LEGIT
  | LEAN_PHISH
  | UNCERTAIN
deriving DecidableEq, Repr

/-- A value stored in the audit context dictionary of a judge response:
a float, an int, a string, or Python None. -/
inductive CtxVal where
  | num : ℚ → CtxVal
  | nat : ℕ → CtxVal
  | str : String → CtxVal
  | null : CtxVal
deriving DecidableEq, Repr

/-- FeatureDigest (src/judge_svc/contracts.py): the eight required
features plus three optional legacy fields.  url_digit_rate models the
url_digit_ratio field. -/
structure FeatureDigest where
  IsHTTPS : ℕ
  TLDLegitimateProb : ℚ
  CharContinuationRate : ℚ
  SpacialCharRatioInURL : ℚ
  URLCharProb : ℚ
  LetterRatioInURL : ℚ
  NoOfOtherSpecialCharsInURL : ℕ
  DomainLength : ℕ
  url_len : Option ℕ
  url_digit_rate : Option ℚ
  url_subdomains : Option ℕ
deriving DecidableEq, Repr

/-- JudgeRequest (src/judge_svc/contracts.py). -/
structure JudgeRequest where
  url : String
  features : FeatureDigest
deriving DecidableEq, Repr

/-- JudgeResponse (src/judge_svc/contracts.py); the context dictionary
is an insertion-ordered association list. -/
structure JudgeResponse where
  verdict : JudgeVerdict
  rationale : String
  judge_score : Option ℚ
  context : List (String × CtxVal)
deriving DecidableEq, Repr

/-- Python dict assignment on an insertion-ordered association list:
replace in place when the key exists, append otherwise. -/
def dictSet (d : List (String × CtxVal)) (k : String) (v : CtxVal) :
    List (String × CtxVal) :=
  if d.any (fun kv => kv.1 == k) then
    d.map (fun kv => if kv.1 = k then (k, v) else kv)
  else d ++ [(k, v)]

/-- Python dict.update with the pairs of another dictionary. -/
def dictUpdate (d : List (String × CtxVal)) (kvs : List (String × CtxVal)) :
    List (String × CtxVal) :=
  kvs.foldl (fun acc kv => dictSet acc kv.1 kv.2) d

/-- An optional int as a context value (Python None when absent). -/
def optNat : Option ℕ → CtxVal
  | some n => .nat n
  | none => .null

/-- An optional float as a context value (Python None when absent). -/
def optNum : Option ℚ → CtxVal
  | some q => .num q
  | none => .null

/-- The eleven-field dictionary built both by the stub judge context and
by pydantic model_dump of a FeatureDigest, in declaration order. -/
def dumpFeatures (f : FeatureDigest) : List (String × CtxVal) :=
  [("IsHTTPS", .nat f.IsHTTPS),
   ("TLDLegitimateProb", .num f.TLDLegitimateProb),
   ("CharContinuationRate", .num f.CharContinuationRate),
   ("SpacialCharRatioInURL", .num f.SpacialCharRatioInURL),
   ("URLCharProb", .num f.URLCharProb),
   ("LetterRatioInURL", .num f.LetterRatioInURL),
   ("NoOfOtherSpecialCharsInURL", .nat f.NoOfOtherSpecialCharsInURL),
   ("DomainLength", .nat f.DomainLength),
   ("url_len", optNat f.url_len),
   ("url_digit_ratio", optNum f.url_digit_rate),
   ("url_subdomains", optNat f.url_subdomains)]

/-- The suspicious token list of _risk_tokens (src/judge_svc/stub.py). -/
def riskTokenList : List String :=
  ["login", "verify", "update", "secure", "account", "paypa1", "signin"]

/-- Substring containment, Python tok in s. -/
def containsSub (tok : List Char) : List Char → Bool
  | [] => tok.isEmpty
  | c :: rest => tok.isPrefixOf (c :: rest) || containsSub tok rest

/-- _risk_tokens (src/judge_svc/stub.py, lines 4-8): how many of the
fixed suspicious tokens occur in the lowercased URL. -/
def risk_tokens (url : String) : ℕ :=
  (riskTokenList.filter (fun t => containsSub t.data (strLower url).data)).length

/-- judge_url, the deterministic stub judge (src/judge_svc/stub.py,
lines 11-133).  Each step threads the (risk, reasons) accumulator
through one if/elif block of the source, the total is clamped to [0,1],
and the verdict bands are risk at least 0.6 LEAN_PHISH, at most 0.2
LEAN_LEGIT, otherwise UNCERTAIN. -/
def judge_url (req : JudgeRequest) : JudgeResponse :=
  let f := req.features
  let a0 : ℚ × List String := (0, [])
  let a1 := if f.IsHTTPS = 0 then (a0.1 + 15/100, a0.2 ++ ["HTTP (not HTTPS)"])
            else a0
  let a2 := if f.TLDLegitimateProb < 10/100 then
              (a1.1 + 30/100, a1.2 ++ ["very low TLD legitimacy"])
            else if f.TLDLegitimateProb < 30/100 then
              (a1.1 + 15/100, a1.2 ++ ["low TLD legitimacy"])
            else a1
  let a3 := if f.CharContinuationRate > 80/100 then
              (a2.1 + 25/100, a2.2 ++ ["high character repetition"])
            else if f.CharContinuationRate > 60/100 then
              (a2.1 + 10/100, a2.2 ++ ["elevated character repetition"])
            else a2
  let a4 := if f.SpacialCharRatioInURL > 25/100 then
              (a3.1 + 25/100, a3.2 ++ ["high special character ratio"])
            else if f.SpacialCharRatioInURL > 15/100 then
              (a3.1 + 15/100, a3.2 ++ ["elevated special character ratio"])
            else a3
  let a5 := if f.URLCharProb < 30/100 then
              (a4.1 + 20/100, a4.2 ++ ["low URL character probability"])
            else if f.URLCharProb < 50/100 then
              (a4.1 + 10/100, a4.2 ++ ["moderate URL character probability"])
            else a4
  let a6 := if f.LetterRatioInURL < 40/100 then
              (a5.1 + 15/100, a5.2 ++ ["low letter ratio"])
            else a5
  let a7 := if f.NoOfOtherSpecialCharsInURL > 8 then
              (a6.1 + 20/100, a6.2 ++ ["many special characters"])
            else if f.NoOfOtherSpecialCharsInURL > 5 then
              (a6.1 + 10/100, a6.2 ++ ["elevated special characters"])
            else a6
  let a8 := if f.DomainLength > 50 then
              (a7.1 + 25/100, a7.2 ++ ["very long domain"])
            else if f.DomainLength > 30 then
              (a7.1 + 10/100, a7.2 ++ ["long domain"])
            else a7
  let a9 := match f.url_len with
            | some n => if n ≥ 120 then (a8.1 + 10/100, a8.2 ++ ["very long URL"])
                        else a8
            | none => a8
  let a10 := match f.url_digit_rate with
             | some r => if r ≥ 25/100 then (a9.1 + 10/100, a9.2 ++ ["high digit ratio"])
                         else a9
             | none => a9
  let a11 := match f.url_subdomains with
             | some n => if n ≥ 4 then (a10.1 + 10/100, a10.2 ++ ["many subdomains"])
                         else a10
             | none => a10
  let rt := risk_tokens req.url
  let a12 := if rt ≥ 2 then
               (a11.1 + 20/100, a11.2 ++ ["multiple phishing tokens in URL"])
             else if rt = 1 then
               (a11.1 + 10/100, a11.2 ++ ["phishing token in URL"])
             else a11
  let risk : ℚ := max 0 (min 1 a12.1)
  let verdict : JudgeVerdict :=
    if risk ≥ 60/100 then .LEAN_PHISH
    else if risk ≤ 20/100 then .LEAN_LEGIT
    else .UNCERTAIN
  let rationale :=
    if a12.2 = [] then "no obvious phishing heuristics triggered"
    else String.intercalate "; " a12.2
  { verdict := verdict
    rationale := rationale
    judge_score := some risk
    context := dumpFeatures f }

/-- Python regex word character (ASCII reading of backslash-w). -/
def isWordChar (c : Char) : Bool := c.isAlphanum || c = '_'

/-- Python regex whitespace (ASCII reading of backslash-s). -/
def isSpaceChar (c : Char) : Bool :=
  c = ' ' || c = '\t' || c = '\n' || c = '\x0b' || c = '\x0c' || c = '\r'

/-- Whether an optional adjacent character is a word character; an
absent neighbour (start or end of text) counts as non-word. -/
def wordAt : Option Char → Bool
  | some c => isWordChar c
  | none => false

/-- Regex word boundary between two adjacent positions. -/
def boundaryB (prev next : Option Char) : Bool := wordAt prev != wordAt next

/-- Case-insensitive literal match; returns the last consumed character
and the remaining text. -/
def matchLitCI : List Char → Option Char → List Char → Option (Option Char × List Char)
  | [], prev, s => some (prev, s)
  | _ :: _, _, [] => none
  | l :: ls, _, c :: cs =>
      if c.toLower = l.toLower then matchLitCI ls (some c) cs else none

/-- Greedy whitespace skip, tracking the last consumed character. -/
def skipSpaces : Option Char → List Char → Option Char × List Char
  | prev, [] => (prev, [])
  | prev, c :: cs => if isSpaceChar c then skipSpaces (some c) cs else (prev, c :: cs)

/-- Leftmost regex search: try an anchored match attempt at every
position from left to right. -/
def searchAux {α : Type} (try1 : Option Char → List Char → Option α) :
    Option Char → List Char → Option α
  | prev, s =>
      match try1 prev s with
      | some r => some r
      | none =>
          match s with
          | [] => none
          | c :: cs => searchAux try1 (some c) cs

/-- One anchored attempt of the _VERDICT_RE pattern of
src/judge_svc/adapter.py (word boundary, VERDICT, optional spaces,
colon, optional spaces, one of the three verdict words, word boundary),
case-insensitive with leftmost alternative preference.  The captured
group uppercased is returned directly as the verdict, exactly as _parse
maps it. -/
def tryVerdict (prev : Option Char) (s : List Char) : Option JudgeVerdict := do
  guard (boundaryB prev s.head? = true)
  let (p1, r1) ← matchLitCI "VERDICT".data prev s
  let (_p2, r2) := skipSpaces p1 r1
  match r2 with
  | ':' :: r3 =>
      let (_p4, r4) := skipSpaces (some ':') r3
      let alt : List Char → JudgeVerdict → Option JudgeVerdict := fun lit v => do
        let (p5, r5) ← matchLitCI lit _p4 r4
        guard (boundaryB p5 r5.head? = true)
        pure v
      alt "LEAN_PHISH".data .LEAN_PHISH <|> alt "LEAN_LEGIT".data .LEAN_LEGIT <|>
        alt "UNCERTAIN".data .UNCERTAIN
  | _ => none

/-- Numeric value of an ASCII digit. -/
def digitVal (c : Char) : ℕ := c.toNat - '0'.toNat

/-- The natural number spelled by a digit list. -/
def natOfDigits (ds : List Char) : ℕ := ds.foldl (fun n c => n * 10 + digitVal c) 0

/-- The value of the digit list ds read as decimal places after the
point. -/
def fracVal (ds : List Char) : ℚ := (natOfDigits ds : ℚ) / (10 ^ ds.length : ℚ)

/-- One anchored attempt of the _SCORE_RE pattern of
src/judge_svc/adapter.py (word boundary, SCORE, optional spaces, colon,
optional spaces, then 0 optionally followed by point and digits, or 1
optionally followed by point and zeros, then word boundary), with the
regex backtracking made explicit: inside a maximal digit run a word
boundary can only hold at the end of the run, and when the fractional
part cannot match the optional group is dropped and the bare leading
digit is kept. -/
def tryScore (prev : Option Char) (s : List Char) : Option ℚ := do
  guard (boundaryB prev s.head? = true)
  let (p1, r1) ← matchLitCI "SCORE".data prev s
  let (_p2, r2) := skipSpaces p1 r1
  match r2 with
  | ':' :: r3 =>
      let (_p4, r4) := skipSpaces (some ':') r3
      match r4 with
      | '0' :: rest =>
          let fallback : Option ℚ :=
            if boundaryB (some '0') rest.head? then some 0 else none
          (match rest with
           | '.' :: rest2 =>
               let ds := rest2.takeWhile Char.isDigit
               let after := rest2.drop ds.length
               if !ds.isEmpty && boundaryB (some (ds.getLastD '0')) after.head? then
                 some (fracVal ds)
               else fallback
           | _ => fallback)
      | '1' :: rest =>
          let fallback : Option ℚ :=
            if boundaryB (some '1') rest.head? then some 1 else none
          (match rest with
           | '.' :: rest2 =>
               let zs := rest2.takeWhile (fun c => c == '0')
               let after := rest2.drop zs.length
               if !zs.isEmpty && boundaryB (some '0') after.head? then some 1
               else fallback
           | _ => fallback)
      | _ => none
  | _ => none

/-- One anchored attempt of the _RAT_RE pattern of
src/judge_svc/adapter.py (word boundary, RATIONALE, optional spaces,
colon, then greedy optional spaces and a non-empty dot-all capture): the
capture is the whole remaining text after the skipped spaces, except
that when nothing remains the greedy space skip gives one character
back. -/
def tryRat (prev : Option Char) (s : List Char) : Option (List Char) := do
  guard (boundaryB prev s.head? = true)
  let (p1, r1) ← matchLitCI "RATIONALE".data prev s
  let (_p2, r2) := skipSpaces p1 r1
  match r2 with
  | ':' :: r3 =>
      let (_p4, r4) := skipSpaces (some ':') r3
      if r4.isEmpty then
        match r3.getLast? with
        | some c => some [c]
        | none => none
      else some r4
  | _ => none

/-- Python str.strip of the default whitespace set. -/
def pyStrip (l : List Char) : List Char :=
  ((l.dropWhile isSpaceChar).reverse.dropWhile isSpaceChar).reverse

/-- A character on which Python str.splitlines breaks. -/
def isLineBreak (c : Char) : Bool :=
  c = '\n' || c = '\r' || c = '\x0b' || c = '\x0c' ||
  c = '\x1c' || c = '\x1d' || c = '\x1e' || c = '\x85' ||
  c = '\u2028' || c = '\u2029'

/-- _parse (src/judge_svc/adapter.py, lines 48-70): verdict defaults to
UNCERTAIN, the score is clamped to [0,1] after the float conversion,
and the rationale is the first line of the stripped capture truncated
to 500 characters, defaulting to the fixed text when the pattern does
not match.  When the capture strips to the empty string,
splitlines()[0] raises IndexError, modelled as Except.error. -/
def parseLLM (text : String) : Except Unit (JudgeVerdict × Option ℚ × String) :=
  let verdict := (searchAux tryVerdict none text.data).getD .UNCERTAIN
  let score := (searchAux tryScore none text.data).map (fun q => max 0 (min 1 q))
  match searchAux tryRat none text.data with
  | none => .ok (verdict, score, "no rationale")
  | some g =>
      match pyStrip g with
      | [] => .error ()
      | c :: cs =>
          .ok (verdict, score,
               ⟨((c :: cs).takeWhile (fun d => !(isLineBreak d))).take 500⟩)

/-- The Ollama HTTP call of judge_url_llm: the response text, or any
raised exception (network failure, timeout, HTTP error status, JSON
decode failure). -/
def LLMCall : Type := JudgeRequest → Except Unit String

/-- The body of the try block of judge_url_llm: the network call
followed by _parse, either of which may raise. -/
def llmAttempt (call : LLMCall) (req : JudgeRequest) :
    Except Unit (JudgeVerdict × Option ℚ × String) := do
  let text ← call req
  parseLLM text

/-- judge_url_llm (src/judge_svc/adapter.py, lines 73-102), with the
JUDGE_MODEL environment value passed explicitly.  On success the
response context is backend llm, the model name, then the feature dump
(a dict literal with no key collisions); on any exception the stub
result is returned with its context updated with backend stub_fallback
and the model name. -/
def judge_url_llm (call : LLMCall) (model : String) (req : JudgeRequest) :
    JudgeResponse :=
  match llmAttempt call req with
  | .ok (v, s, r) =>
      { verdict := v
        judge_score := s
        rationale := r
        context := ("backend", .str "llm") :: ("model", .str model) ::
                     dumpFeatures req.features }
  | .error _ =>
      let fb := judge_url req
      { fb with
        context := dictUpdate fb.context
          [("backend", .str "stub_fallback"), ("model", .str model)] }

/-- A gray-zone feature digest on which the stub fires no heuristic:
HTTPS, reputable TLD, no repetition, no special characters, common
characters, balanced letters, short domain, no legacy fields. -/
def benignDigest : FeatureDigest :=
  { IsHTTPS := 1
    TLDLegitimateProb := 9/10
    CharContinuationRate := 0
    SpacialCharRatioInURL := 0
    URLCharProb := 9/10
    LetterRatioInURL := 1/2
    NoOfOtherSpecialCharsInURL := 0
    DomainLength := 8
    url_len := none
    url_digit_rate := none
    url_subdomains := none }

/-- A concrete judge request used as a test vector. -/
def benignRequest : JudgeRequest := ⟨"http://a", benignDigest⟩

/-- The three process-wide counter families of src/common/stats.py,
each keyed by its label type. -/
structure Counters where
  policy : Decision → ℕ
  final : Decision → ℕ
  judge : JudgeVerdict → ℕ

/-- inc_policy (src/common/stats.py, lines 13-14). -/
def inc_policy (kind : Decision) (c : Counters) : Counters :=
  { c with policy := fun d => if d = kind then c.policy d + 1 else c.policy d }

/-- inc_final (src/common/stats.py, lines 17-18). -/
def inc_final (kind : Decision) (c : Counters) : Counters :=
  { c with final := fun d => if d = kind then c.final d + 1 else c.final d }

/-- inc_judge (src/common/stats.py, lines 21-22). -/
def inc_judge (verdict : JudgeVerdict) (c : Counters) : Counters :=
  { c with judge := fun v => if v = verdict then c.judge v + 1 else c.judge v }

/-- The all-zero counters state. -/
def zeroCounters : Counters := ⟨fun _ => 0, fun _ => 0, fun _ => 0⟩

/-- The enhanced-routing configuration of src/gateway/judge_wire.py:
SHORT_DOMAIN_LENGTH (environment, default 10) and
SHORT_DOMAIN_CONFIDENCE (environment, default 0.5). -/
structure RoutingConfig where
  shortDomainLength : ℕ
  shortDomainConfidence : ℚ

/-- _url_len (src/gateway/judge_wire.py, lines 56-58) on a string. -/
def url_len (s : String) : ℕ := s.length

/-- _digit_ratio (src/gateway/judge_wire.py, lines 61-66): digit count
over length, 0 for the empty string. -/
def digitRate (s : String) : ℚ :=
  if s = "" then 0
  else ((s.data.filter (fun c => c.isDigit)).length : ℚ) / s.length

/-- The text after the first colon-slash-slash marker, when present. -/
def afterMarker? : List Char → Option (List Char)
  | ':' :: '/' :: '/' :: rest => some rest
  | _ :: rest => afterMarker? rest
  | [] => none

/-- _subdomain_count (src/gateway/judge_wire.py, lines 69-74): dots of
the host part minus one, floored at zero (natural subtraction). -/
def subdomain_count (s : String) : ℕ :=
  if s = "" then 0
  else
    let host := ((afterMarker? s.data).getD s.data).takeWhile (fun c => c != '/')
    (host.filter (fun c => c == '.')).length - 1

/-- _extract_domain (src/gateway/judge_wire.py, lines 90-95): lowercased
netloc of the parsed URL, empty on a parse error. -/
def extract_domain (url : String) : String :=
  match urlsplitE url with
  | .ok p => strLower p.netloc
  | .error _ => ""

/-- _should_route_to_judge_for_short_domain (src/gateway/judge_wire.py,
lines 105-124): a nonempty parsed domain of length at most the
configured threshold with p_malicious below the configured confidence
ceiling. -/
def should_route_short_domain (cfg : RoutingConfig) (url : String)
    (p_malicious : ℚ) : Bool :=
  let domain := extract_domain url
  if domain = "" then false
  else if domain.length ≤ cfg.shortDomainLength ∧
          p_malicious < cfg.shortDomainConfidence then true
  else false

/-- The FeatureDigest built by decide_with_judge (src/gateway/judge_wire.py,
lines 159-176) from the _extract_8features result: the dictionary
defaults never fire because extract_features always returns all eight
keys, and the legacy fields always come from the legacy helpers because
extract_features never returns them. -/
def grayDigest (fe : FeatureEnv) (url : String) : FeatureDigest :=
  let f8 := extract_features fe url true
  { IsHTTPS := f8.IsHTTPS.getD 0
    TLDLegitimateProb := f8.TLDLegitimateProb
    CharContinuationRate := f8.CharContinuationRate
    SpacialCharRatioInURL := f8.SpacialCharRatioInURL
    URLCharProb := f8.URLCharProb
    LetterRatioInURL := f8.LetterRatioInURL
    NoOfOtherSpecialCharsInURL := f8.NoOfOtherSpecialCharsInURL
    DomainLength := f8.DomainLength
    url_len := some (url_len url)
    url_digit_rate := some (digitRate url)
    url_subdomains := some (subdomain_count url) }

/-- The JudgeRequest sent to the judge backend for a gray-zone URL. -/
def grayRequest (fe : FeatureEnv) (url : String) : JudgeRequest :=
  ⟨url, grayDigest fe url⟩

/-- JudgeOutcome (src/gateway/judge_wire.py, lines 98-102). -/
structure JudgeOutcome where
  final_decision : Decision
  policy_reason : String
  judge : Option JudgeResponse
deriving DecidableEq, Repr

/-- The fixed verdict-to-decision mapping of decide_with_judge. -/
def verdictMap : JudgeVerdict → Decision
  | .LEAN_PHISH => BLOCK
  | .LEAN_LEGIT => ALLOW
  | .UNCERTAIN => REVIEW

/-- The judge policy_reason of decide_with_judge, with the short-domain
infix when the routing predicate fired. -/
def judgeReason (short : Bool) : JudgeVerdict → String
  | .LEAN_PHISH =>
      if short then "judge-short-domain-lean-phish" else "judge-lean-phish"
  | .LEAN_LEGIT =>
      if short then "judge-short-domain-lean-legit" else "judge-lean-legit"
  | .UNCERTAIN =>
      if short then "judge-short-domain-uncertain" else "judge-uncertain"

/-- decide_with_judge (src/gateway/judge_wire.py, lines 127-233), with
the judge backend (_JUDGE_FN, selected from the environment at import),
the feature-extraction collaborators and the routing configuration
passed explicitly, and the counter module state threaded as an explicit
state value.  The optional Mongo audit block is a no-op for the decision
outcome (all its exceptions are swallowed) and is omitted. -/
def decide_with_judge (fe : FeatureEnv)
    (judgeFn : JudgeRequest → JudgeResponse) (cfg : RoutingConfig)
    (url : String) (p_malicious : ℚ) (th : Thresholds) (st : Counters) :
    JudgeOutcome × Counters :=
  let base := decide p_malicious th
  let st1 := inc_policy base st
  if base ≠ REVIEW then
    (⟨base, "policy-band", none⟩, inc_final base st1)
  else
    let is_short := should_route_short_domain cfg url p_malicious
    let jr := judgeFn (grayRequest fe url)
    let final := verdictMap jr.verdict
    let reason := judgeReason is_short jr.verdict
    (⟨final, reason, some jr⟩, inc_final final (inc_judge jr.verdict st1))

/-- A feature environment with an empty TLD table and suffix function,
used as a test vector. -/
def emptyFeatureEnv : FeatureEnv := ⟨fun _ => none, fun _ => ""⟩

/-- A judge backend returning a fixed response, used as a test vector. -/
def constJudge : JudgeRequest → JudgeResponse :=
  fun _ => ⟨.LEAN_LEGIT, "mock", some 0, []⟩

end PhishGuard

namespace PhishGuard

open Decision

/-- Claim C2: for every probability p and thresholds th with low ≤ high,
decide returns ALLOW iff p < low, BLOCK iff p ≥ high, and REVIEW
otherwise; in particular decide at p = low is REVIEW when low < high,
and decide at p = high is BLOCK. -/
theorem decide_band_characterisation (p : ℚ) (th : Thresholds)
    (hth : th.low ≤ th.high) :
    (decide p th = ALLOW ↔ p < th.low) ∧
    (decide p th = BLOCK ↔ th.high ≤ p) ∧
    (decide p th = REVIEW ↔ th.low ≤ p ∧ p < th.high) ∧
    (th.low < th.high → decide th.low th = REVIEW) ∧
    decide th.high th = BLOCK := by
  unfold decide
  constructor
  · constructor
    · intro h
      by_contra hlt
      rw [if_neg hlt] at h
      by_cases hh : p ≥ th.high
      · simp [hh] at h
      · simp [hh] at h
    · intro h; rw [if_pos h]
  constructor
  · constructor
    · intro h
      by_cases hlt : p < th.low
      · rw [if_pos hlt] at h; cases h
      · by_cases hh : p ≥ th.high
        · exact hh
        · rw [if_neg hlt, if_neg hh] at h; cases h
    · intro h
      have hlt : ¬ p < th.low := not_lt.mpr (le_trans hth h)
      rw [if_neg hlt, if_pos h]
  constructor
  · constructor
    · intro h
      by_cases hlt : p < th.low
      · rw [if_pos hlt] at h; cases h
      · by_cases hh : p ≥ th.high
        · rw [if_neg hlt, if_pos hh] at h; cases h
        · exact ⟨not_lt.mp hlt, not_le.mp hh⟩
    · intro h
      rw [if_neg (not_lt.mpr h.1), if_neg (not_le.mpr h.2)]
  constructor
  · intro hlh
    rw [if_neg (lt_irrefl th.low), if_neg (not_le.mpr hlh)]
  · rw [if_neg (not_lt.mpr hth), if_pos (le_refl th.high)]

/-- Witness for C2 at p = 1 with thresholds low = 1, high = 2. -/
theorem decide_band_characterisation_witness :
    ((1:ℚ) ≤ 2) ∧
    (decide 1 ⟨1, 1, 2, 1⟩ = REVIEW ↔ (1:ℚ) ≤ 1 ∧ (1:ℚ) < 2) :=
  ⟨by decide, (decide_band_characterisation 1 ⟨1, 1, 2, 1⟩ (by decide)).2.2.1⟩

/-- Counterexample to claim C4: load_thresholds happily produces a
Thresholds value with low = 0.9 above high = 0.1 from a configuration
carrying those values, instead of rejecting it. -/
theorem load_thresholds_accepts_inverted_band :
    load_thresholds badConfig =
      .ok { t_star := 45/100, low := 9/10, high := 1/10,
            gray_zone_rate := 1/10 } ∧
    ((9:ℚ)/10 > 1/10) := by
  constructor
  · rfl
  · norm_num

/-- Claim C4 (amended): load_thresholds performs no ordering validation at
all; loading succeeds exactly when the gray_zone_rate field is present in
the branch being read (nested when a thresholds key exists, flat
otherwise), regardless of how low and high compare. -/
theorem load_thresholds_no_ordering_check (cfg : ConfigFile) :
    (∃ t, load_thresholds cfg = .ok t) ↔ (activeRate cfg).isSome := by
  unfold load_thresholds activeRate
  cases hn : cfg.nested with
  | some th =>
      cases hr : th.gray_zone_rate with
      | none => simp [hr]
      | some gzr => simp [hr]
  | none =>
      cases hr : cfg.flat.gray_zone_rate with
      | none => simp [hr]
      | some gzr => simp [hr]

/-- Claim C7: extract_features is total (it is a Lean function), and on
empty input or a URL on which urlsplit fails it returns the fixed
neutral-default digest: TLDLegitimateProb 0.5, URLCharProb 0.05, and
every other field (IsHTTPS when requested, CharContinuationRate,
SpacialCharRatioInURL, LetterRatioInURL, NoOfOtherSpecialCharsInURL,
DomainLength) equal to 0. -/
theorem extract_features_neutral_default (env : FeatureEnv) (url : String)
    (b : Bool) (h : url = "" ∨ (urlsplitE url).isOk = false) :
    extract_features env url b = zero_features b ∧
    zero_features b =
      { IsHTTPS := if b then some 0 else none
        TLDLegitimateProb := 1/2
        CharContinuationRate := 0
        SpacialCharRatioInURL := 0
        URLCharProb := 5/100
        LetterRatioInURL := 0
        NoOfOtherSpecialCharsInURL := 0
        DomainLength := 0 } := by
  refine ⟨?_, rfl⟩
  unfold extract_features
  rcases h with h | h
  · rw [if_pos h]
  · by_cases he : url = ""
    · rw [if_pos he]
    · rw [if_neg he]
      cases hs : urlsplitE url with
      | error e => simp [hs]
      | ok parsed => rw [hs] at h; cases h

/-- Witness for C7 at the malformed URL http with an unmatched bracket
(urlsplit raises Invalid IPv6 URL there). -/
theorem extract_features_neutral_default_witness :
    extract_features ⟨fun _ => none, fun _ => ""⟩ "http://[" true =
      zero_features true :=
  (extract_features_neutral_default ⟨fun _ => none, fun _ => ""⟩ "http://["
    true (Or.inr (by decide))).1

/-- Claim C10: for every non-empty URL, the special-character ratio of
_calc_special_char_ratio multiplied by the URL length equals the count
of _count_special_chars exactly, both being computed over the identical
special-character set. -/
theorem special_frac_times_length_eq_count (url : String) (h : url ≠ "") :
    calc_special_char_frac url * (url.length : ℚ) =
      (count_special_chars url : ℚ) := by
  unfold calc_special_char_frac count_special_chars
  rw [if_neg h, if_neg h]
  have hd : url.data ≠ [] := fun hnil => h (congrArg String.mk hnil)
  have hlen : (url.length : ℚ) ≠ 0 := by
    have h0 : url.length ≠ 0 := fun h0 => hd (List.length_eq_zero.mp h0)
    exact_mod_cast h0
  field_simp

/-- Witness for C10 at a concrete URL. -/
theorem special_frac_times_length_eq_count_witness :
    calc_special_char_frac "http://ex.com" * (("http://ex.com").length : ℚ) =
      (count_special_chars "http://ex.com" : ℚ) :=
  special_frac_times_length_eq_count "http://ex.com" (by decide)

/-- Counterexample to claim C6: on the response text SCORE: 1.5 the
score literal 1.5 lies outside [0,1], yet the parsed score is not null:
the pattern matches the in-range prefix 1 and the parser returns score
1. -/
theorem parse_out_of_range_score_not_discarded :
    parseLLM "SCORE: 1.5" = .ok (.UNCERTAIN, some 1, "no rationale") ∧
    (1 : ℚ) < 3/2 := by
  constructor
  · rfl
  · norm_num

/-- Claim C6 (amended): _parse extracts the three labeled fields by
pattern matching; when no verdict label is parsed the verdict defaults
to UNCERTAIN, and any parsed score lies in [0,1] (the score pattern only
matches in-range literals and the result is clamped) — but an
out-of-range score literal is not always discarded as null: it can match
through an in-range prefix, as the counterexample shows. -/
theorem parse_verdict_default_and_score_range (text : String)
    (v : JudgeVerdict) (s : Option ℚ) (r : String)
    (h : parseLLM text = .ok (v, s, r)) :
    (searchAux tryVerdict none text.data = none → v = .UNCERTAIN) ∧
    (∀ q, s = some q → 0 ≤ q ∧ q ≤ 1) := by
  have hv : v = (searchAux tryVerdict none text.data).getD .UNCERTAIN ∧
      s = (searchAux tryScore none text.data).map (fun q => max 0 (min 1 q)) := by
    unfold parseLLM at h
    split at h
    · injection h with h1
      exact ⟨(congrArg Prod.fst h1).symm,
             (congrArg (fun p => p.2.1) h1).symm⟩
    · split at h
      · cases h
      · injection h with h1
        exact ⟨(congrArg Prod.fst h1).symm,
               (congrArg (fun p => p.2.1) h1).symm⟩
  obtain ⟨hv1, hv2⟩ := hv
  constructor
  · intro hnone
    rw [hv1, hnone]
    rfl
  · intro q hq
    rw [hv2] at hq
    cases hx : searchAux tryScore none text.data with
    | none => rw [hx] at hq; cases hq
    | some x =>
        rw [hx] at hq
        injection hq with hq
        constructor
        · rw [← hq]; exact le_max_left 0 (min 1 x)
        · rw [← hq]
          exact max_le (by norm_num) (min_le_left 1 x)

/-- Witness for C6 (amended) at the text SCORE: 2, whose verdict label
is absent and whose out-of-range score fails to match (null). -/
theorem parse_verdict_default_and_score_range_witness :
    (searchAux tryVerdict none ("SCORE: 2").data = none →
      JudgeVerdict.UNCERTAIN = .UNCERTAIN) ∧
    (∀ q, (none : Option ℚ) = some q → 0 ≤ q ∧ q ≤ 1) :=
  parse_verdict_default_and_score_range "SCORE: 2" .UNCERTAIN none
    "no rationale" rfl

/-- Counterexample to claim C5: when the LLM call raises,
judge_url_llm does not return the very same response as the stub — the
audit context gains the backend stub_fallback and model tags. -/
theorem llm_failure_not_identical_to_stub :
    judge_url_llm (fun _ => .error ()) "llama3.2:1b" benignRequest ≠
      judge_url benignRequest := by
  intro h
  have hl : (judge_url_llm (fun _ => .error ()) "llama3.2:1b"
        benignRequest).context.length =
      (judge_url benignRequest).context.length := by rw [h]
  revert hl
  decide

/-- Claim C5 (amended): whenever the try block of judge_url_llm raises
(network error, timeout, HTTP status, JSON decode or parse failure),
the returned response is exactly the stub response on the identical
request with only the audit context updated with the backend
stub_fallback and model tags; verdict, judge_score and rationale agree
with the stub. -/
theorem llm_failure_falls_back_to_stub (call : LLMCall) (model : String)
    (req : JudgeRequest) (h : llmAttempt call req = .error ()) :
    judge_url_llm call model req =
      { judge_url req with
        context := dictUpdate (judge_url req).context
          [("backend", .str "stub_fallback"), ("model", .str model)] } ∧
    (judge_url_llm call model req).verdict = (judge_url req).verdict ∧
    (judge_url_llm call model req).judge_score =
      (judge_url req).judge_score ∧
    (judge_url_llm call model req).rationale = (judge_url req).rationale := by
  unfold judge_url_llm
  rw [h]
  exact ⟨rfl, rfl, rfl, rfl⟩

/-- Helper: decide returns ALLOW below the low threshold. -/
theorem decide_eq_allow (p : ℚ) (th : Thresholds) (hp : p < th.low) :
    decide p th = ALLOW := by
  unfold decide
  rw [if_pos hp]

/-- Helper: decide returns BLOCK at or above the high threshold of an
ordered band. -/
theorem decide_eq_block (p : ℚ) (th : Thresholds) (hth : th.low ≤ th.high)
    (hp : th.high ≤ p) : decide p th = BLOCK := by
  unfold decide
  rw [if_neg (not_lt.mpr (le_trans hth hp)), if_pos hp]

/-- Helper: decide returns REVIEW inside the gray band. -/
theorem decide_eq_review (p : ℚ) (th : Thresholds) (h1 : th.low ≤ p)
    (h2 : p < th.high) : decide p th = REVIEW := by
  unfold decide
  rw [if_neg (not_lt.mpr h1), if_neg (not_le.mpr h2)]

/-- Helper: the fast ALLOW path of decide_with_judge in closed form. -/
theorem dwj_allow (fe : FeatureEnv) (f : JudgeRequest → JudgeResponse)
    (cfg : RoutingConfig) (url : String) (p : ℚ) (th : Thresholds)
    (st : Counters) (hp : p < th.low) :
    decide_with_judge fe f cfg url p th st =
      (⟨ALLOW, "policy-band", none⟩, inc_final ALLOW (inc_policy ALLOW st)) := by
  simp [decide_with_judge, decide_eq_allow p th hp]

/-- Helper: the fast BLOCK path of decide_with_judge in closed form. -/
theorem dwj_block (fe : FeatureEnv) (f : JudgeRequest → JudgeResponse)
    (cfg : RoutingConfig) (url : String) (p : ℚ) (th : Thresholds)
    (st : Counters) (hth : th.low ≤ th.high) (hp : th.high ≤ p) :
    decide_with_judge fe f cfg url p th st =
      (⟨BLOCK, "policy-band", none⟩, inc_final BLOCK (inc_policy BLOCK st)) := by
  simp [decide_with_judge, decide_eq_block p th hth hp]

/-- Helper: the gray-zone path of decide_with_judge in closed form. -/
theorem dwj_gray (fe : FeatureEnv) (f : JudgeRequest → JudgeResponse)
    (cfg : RoutingConfig) (url : String) (p : ℚ) (th : Thresholds)
    (st : Counters) (hb : decide p th = REVIEW) :
    decide_with_judge fe f cfg url p th st =
      (⟨verdictMap (f (grayRequest fe url)).verdict,
        judgeReason (should_route_short_domain cfg url p)
          (f (grayRequest fe url)).verdict,
        some (f (grayRequest fe url))⟩,
       inc_final (verdictMap (f (grayRequest fe url)).verdict)
         (inc_judge (f (grayRequest fe url)).verdict
           (inc_policy REVIEW st))) := by
  simp [decide_with_judge, hb]

/-- Claim C1: below the low threshold decide_with_judge returns ALLOW
with policy_reason policy-band and no judge, and at or above the high
threshold it returns BLOCK with policy_reason policy-band and no judge;
in both cases the result is the stated closed form, which does not
depend on the judge backend — the judge is not invoked. -/
theorem fast_path_policy_band (fe : FeatureEnv)
    (f : JudgeRequest → JudgeResponse) (cfg : RoutingConfig) (url : String)
    (p : ℚ) (th : Thresholds) (st : Counters) (hth : th.low ≤ th.high) :
    (p < th.low →
      decide_with_judge fe f cfg url p th st =
        (⟨ALLOW, "policy-band", none⟩,
         inc_final ALLOW (inc_policy ALLOW st))) ∧
    (th.high ≤ p →
      decide_with_judge fe f cfg url p th st =
        (⟨BLOCK, "policy-band", none⟩,
         inc_final BLOCK (inc_policy BLOCK st))) :=
  ⟨fun hp => dwj_allow fe f cfg url p th st hp,
   fun hp => dwj_block fe f cfg url p th st hth hp⟩

/-- Witness for C1 at p = 0 with thresholds low = 1, high = 2. -/
theorem fast_path_policy_band_witness :
    decide_with_judge emptyFeatureEnv constJudge ⟨10, 0⟩ "http://x" 0
        ⟨1, 1, 2, 1⟩ zeroCounters =
      (⟨ALLOW, "policy-band", none⟩,
       inc_final ALLOW (inc_policy ALLOW zeroCounters)) :=
  (fast_path_policy_band emptyFeatureEnv constJudge ⟨10, 0⟩ "http://x" 0
    ⟨1, 1, 2, 1⟩ zeroCounters (by decide)).1 (by decide)

/-- Claim C3: inside the gray band decide_with_judge invokes the judge
backend and returns its response, whatever backend function it is, and
the final decision is the image of the returned verdict under the fixed
mapping LEAN_PHISH to BLOCK, LEAN_LEGIT to ALLOW, UNCERTAIN to
REVIEW. -/
theorem gray_zone_judge_verdict_mapping (fe : FeatureEnv)
    (f : JudgeRequest → JudgeResponse) (cfg : RoutingConfig) (url : String)
    (p : ℚ) (th : Thresholds) (st : Counters)
    (h1 : th.low ≤ p) (h2 : p < th.high) :
    ((decide_with_judge fe f cfg url p th st).1.judge =
      some (f (grayRequest fe url))) ∧
    ((decide_with_judge fe f cfg url p th st).1.final_decision =
      verdictMap (f (grayRequest fe url)).verdict) ∧
    verdictMap .LEAN_PHISH = BLOCK ∧
    verdictMap .LEAN_LEGIT = ALLOW ∧
    verdictMap .UNCERTAIN = REVIEW := by
  rw [dwj_gray fe f cfg url p th st (decide_eq_review p th h1 h2)]
  exact ⟨rfl, rfl, rfl, rfl, rfl⟩

/-- Witness for C3 at p = 1 with thresholds low = 1, high = 2 and a
constant LEAN_LEGIT backend. -/
theorem gray_zone_judge_verdict_mapping_witness :
    ((decide_with_judge emptyFeatureEnv constJudge ⟨10, 0⟩ "http://x" 1
        ⟨1, 1, 2, 1⟩ zeroCounters).1.judge =
      some (constJudge (grayRequest emptyFeatureEnv "http://x"))) ∧
    ((decide_with_judge emptyFeatureEnv constJudge ⟨10, 0⟩ "http://x" 1
        ⟨1, 1, 2, 1⟩ zeroCounters).1.final_decision =
      verdictMap (constJudge (grayRequest emptyFeatureEnv "http://x")).verdict) ∧
    verdictMap .LEAN_PHISH = BLOCK ∧
    verdictMap .LEAN_LEGIT = ALLOW ∧
    verdictMap .UNCERTAIN = REVIEW :=
  gray_zone_judge_verdict_mapping emptyFeatureEnv constJudge ⟨10, 0⟩
    "http://x" 1 ⟨1, 1, 2, 1⟩ zeroCounters (by decide) (by decide)

/-- Claim C8: in the gray zone the short-domain routing configuration
never changes the final decision, the returned judge response, or the
counters — only the policy_reason string, which carries the
short-domain infix exactly when the predicate (nonempty parsed domain
of length at most the threshold, and p below the confidence ceiling)
fires. -/
theorem short_domain_only_tags_reason (fe : FeatureEnv)
    (f : JudgeRequest → JudgeResponse) (cfg1 cfg2 : RoutingConfig)
    (url : String) (p : ℚ) (th : Thresholds) (st : Counters)
    (h1 : th.low ≤ p) (h2 : p < th.high) :
    ((decide_with_judge fe f cfg1 url p th st).1.final_decision =
      (decide_with_judge fe f cfg2 url p th st).1.final_decision) ∧
    ((decide_with_judge fe f cfg1 url p th st).1.judge =
      (decide_with_judge fe f cfg2 url p th st).1.judge) ∧
    ((decide_with_judge fe f cfg1 url p th st).2 =
      (decide_with_judge fe f cfg2 url p th st).2) ∧
    (∀ cfg : RoutingConfig,
      (decide_with_judge fe f cfg url p th st).1.policy_reason =
        judgeReason (should_route_short_domain cfg url p)
          (f (grayRequest fe url)).verdict) ∧
    (∀ cfg : RoutingConfig,
      should_route_short_domain cfg url p = true ↔
        extract_domain url ≠ "" ∧
        (extract_domain url).length ≤ cfg.shortDomainLength ∧
        p < cfg.shortDomainConfidence) := by
  have hb := decide_eq_review p th h1 h2
  refine ⟨?_, ?_, ?_, ?_, ?_⟩
  · rw [dwj_gray fe f cfg1 url p th st hb, dwj_gray fe f cfg2 url p th st hb]
  · rw [dwj_gray fe f cfg1 url p th st hb, dwj_gray fe f cfg2 url p th st hb]
  · rw [dwj_gray fe f cfg1 url p th st hb, dwj_gray fe f cfg2 url p th st hb]
  · intro cfg
    rw [dwj_gray fe f cfg url p th st hb]
  · intro cfg
    unfold should_route_short_domain
    by_cases hd : extract_domain url = ""
    · simp [hd]
    · simp only [hd, if_false]
      by_cases hc : (extract_domain url).length ≤ cfg.shortDomainLength ∧
          p < cfg.shortDomainConfidence
      · simp [hc, hd]
      · simp [hc, hd]

/-- Witness for C8 at p = 1 with thresholds low = 1, high = 2 and two
routing configurations. -/
theorem short_domain_only_tags_reason_witness :
    ((decide_with_judge emptyFeatureEnv constJudge ⟨10, 0⟩ "http://x" 1
        ⟨1, 1, 2, 1⟩ zeroCounters).1.final_decision =
      (decide_with_judge emptyFeatureEnv constJudge ⟨0, 0⟩ "http://x" 1
        ⟨1, 1, 2, 1⟩ zeroCounters).1.final_decision) ∧
    ((decide_with_judge emptyFeatureEnv constJudge ⟨10, 0⟩ "http://x" 1
        ⟨1, 1, 2, 1⟩ zeroCounters).1.judge =
      (decide_with_judge emptyFeatureEnv constJudge ⟨0, 0⟩ "http://x" 1
        ⟨1, 1, 2, 1⟩ zeroCounters).1.judge) ∧
    ((decide_with_judge emptyFeatureEnv constJudge ⟨10, 0⟩ "http://x" 1
        ⟨1, 1, 2, 1⟩ zeroCounters).2 =
      (decide_with_judge emptyFeatureEnv constJudge ⟨0, 0⟩ "http://x" 1
        ⟨1, 1, 2, 1⟩ zeroCounters).2) ∧
    (∀ cfg : RoutingConfig,
      (decide_with_judge emptyFeatureEnv constJudge cfg "http://x" 1
          ⟨1, 1, 2, 1⟩ zeroCounters).1.policy_reason =
        judgeReason (should_route_short_domain cfg "http://x" 1)
          (constJudge (grayRequest emptyFeatureEnv "http://x")).verdict) ∧
    (∀ cfg : RoutingConfig,
      should_route_short_domain cfg "http://x" 1 = true ↔
        extract_domain "http://x" ≠ "" ∧
        (extract_domain "http://x").length ≤ cfg.shortDomainLength ∧
        (1:ℚ) < cfg.shortDomainConfidence) :=
  short_domain_only_tags_reason emptyFeatureEnv constJudge ⟨10, 0⟩ ⟨0, 0⟩
    "http://x" 1 ⟨1, 1, 2, 1⟩ zeroCounters (by decide) (by decide)

/-- Helper: one fast ALLOW decision bumps the ALLOW policy and final
counters by one and leaves every judge counter unchanged. -/
theorem counters_after_allow (st : Counters) :
    (inc_final ALLOW (inc_policy ALLOW st)).policy ALLOW =
        st.policy ALLOW + 1 ∧
    (inc_final ALLOW (inc_policy ALLOW st)).final ALLOW =
        st.final ALLOW + 1 ∧
    ∀ v, (inc_final ALLOW (inc_policy ALLOW st)).judge v = st.judge v := by
  refine ⟨?_, ?_, fun v => rfl⟩ <;> simp [inc_final, inc_policy]

/-- Claim C9: starting from any counters state, a sequence of N
decide_with_judge calls that each take the fast ALLOW path (p below
low) increases the ALLOW policy counter by exactly N and the ALLOW
final counter by exactly N while every judge-verdict counter is
unchanged. -/
theorem allow_fast_path_counter_deltas (fe : FeatureEnv)
    (f : JudgeRequest → JudgeResponse) (cfg : RoutingConfig)
    (th : Thresholds) (inputs : List (String × ℚ)) (st : Counters)
    (h : ∀ x ∈ inputs, x.2 < th.low) :
    ((inputs.foldl
        (fun s x => (decide_with_judge fe f cfg x.1 x.2 th s).2) st).policy
        ALLOW = st.policy ALLOW + inputs.length) ∧
    ((inputs.foldl
        (fun s x => (decide_with_judge fe f cfg x.1 x.2 th s).2) st).final
        ALLOW = st.final ALLOW + inputs.length) ∧
    (∀ v, (inputs.foldl
        (fun s x => (decide_with_judge fe f cfg x.1 x.2 th s).2) st).judge
        v = st.judge v) := by
  induction inputs generalizing st with
  | nil => exact ⟨rfl, rfl, fun v => rfl⟩
  | cons x xs ih =>
      have hx : x.2 < th.low := h x (List.mem_cons_self x xs)
      have hxs : ∀ y ∈ xs, y.2 < th.low :=
        fun y hy => h y (List.mem_cons_of_mem x hy)
      have hstep : (decide_with_judge fe f cfg x.1 x.2 th st).2 =
          inc_final ALLOW (inc_policy ALLOW st) :=
        congrArg Prod.snd (dwj_allow fe f cfg x.1 x.2 th st hx)
      obtain ⟨hc1, hc2, hc3⟩ := counters_after_allow st
      obtain ⟨ih1, ih2, ih3⟩ := ih (inc_final ALLOW (inc_policy ALLOW st)) hxs
      rw [List.foldl_cons, hstep]
      refine ⟨?_, ?_, ?_⟩
      · rw [ih1, hc1, List.length_cons]
        omega
      · rw [ih2, hc2, List.length_cons]
        omega
      · intro v
        rw [ih3 v, hc3 v]

/-- Witness for C9: two fast ALLOW decisions from the zero counters. -/
theorem allow_fast_path_counter_deltas_witness :
    (([("http://x", (0:ℚ)), ("http://y", (0:ℚ))].foldl
        (fun s x =>
          (decide_with_judge emptyFeatureEnv constJudge ⟨10, 0⟩ x.1 x.2
            ⟨1, 1, 2, 1⟩ s).2) zeroCounters).policy ALLOW =
      zeroCounters.policy ALLOW +
        ([("http://x", (0:ℚ)), ("http://y", (0:ℚ))] :
          List (String × ℚ)).length) ∧
    (([("http://x", (0:ℚ)), ("http://y", (0:ℚ))].foldl
        (fun s x =>
          (decide_with_judge emptyFeatureEnv constJudge ⟨10, 0⟩ x.1 x.2
            ⟨1, 1, 2, 1⟩ s).2) zeroCounters).final ALLOW =
      zeroCounters.final ALLOW +
        ([("http://x", (0:ℚ)), ("http://y", (0:ℚ))] :
          List (String × ℚ)).length) ∧
    (∀ v, ([("http://x", (0:ℚ)), ("http://y", (0:ℚ))].foldl
        (fun s x =>
          (decide_with_judge emptyFeatureEnv constJudge ⟨10, 0⟩ x.1 x.2
            ⟨1, 1, 2, 1⟩ s).2) zeroCounters).judge v =
      zeroCounters.judge v) :=
  allow_fast_path_counter_deltas emptyFeatureEnv constJudge ⟨10, 0⟩
    ⟨1, 1, 2, 1⟩ [("http://x", (0:ℚ)), ("http://y", (0:ℚ))] zeroCounters
    (by decide)

/-- Witness for C5 (amended) with an always-failing LLM call on the
benign request. -/
theorem llm_failure_falls_back_to_stub_witness :
    judge_url_llm (fun _ => .error ()) "llama3.2:1b" benignRequest =
      { judge_url benignRequest with
        context := dictUpdate (judge_url benignRequest).context
          [("backend", .str "stub_fallback"),
           ("model", .str "llama3.2:1b")] } ∧
    (judge_url_llm (fun _ => .error ()) "llama3.2:1b" benignRequest).verdict =
      (judge_url benignRequest).verdict ∧
    (judge_url_llm (fun _ => .error ()) "llama3.2:1b"
        benignRequest).judge_score = (judge_url benignRequest).judge_score ∧
    (judge_url_llm (fun _ => .error ()) "llama3.2:1b"
        benignRequest).rationale = (judge_url benignRequest).rationale :=
  llm_failure_falls_back_to_stub (fun _ => .error ()) "llama3.2:1b"
    benignRequest rfl

end PhishGuard
